import Mathlib

/-!
Verification of the SMTP ingress gateway (om-surushe/SMTP-Server) against its
natural-language specification.  The Python sources under src/ are shallowly
embedded: module-level mutable state becomes explicit state passing, Python
object identity for the status store is modelled with an explicit heap of
records addressed by natural-number references, and Python truthiness tests
are modelled by explicit boolean functions.
-/

namespace SMTP

/-- Python truthiness of an optional string (`if s:`): `None` and `""` are falsy. -/
def truthyStr : Option String → Bool
  | none => false
  | some s => !(s == "")

/-- Python truthiness of an optional dict (`if d:`): `None` and `{}` are falsy. -/
def truthyDict : Option (List (String × String)) → Bool
  | none => false
  | some d => !d.isEmpty

/-- Python truthiness of an optional list (`if l:`): `None` and `[]` are falsy. -/
def truthyList {α : Type} : Option (List α) → Bool
  | none => false
  | some l => !l.isEmpty

/-- Python `str()` applied to an optional string: `None` renders as `"None"`. -/
def pyStr : Option String → String
  | none => "None"
  | some s => s

/-- Boolean test that the first list starts the second one. -/
def leadsWith : List Char → List Char → Bool
  | [], _ => true
  | _ :: _, [] => false
  | a :: as, b :: bs => a == b && leadsWith as bs

/-- Boolean test that the first list occurs contiguously inside the second. -/
def subListAt : List Char → List Char → Bool
  | needle, [] => needle.isEmpty
  | needle, c :: rest => leadsWith needle (c :: rest) || subListAt needle rest

/-- Python's `needle in haystack` on strings: contiguous substring test. -/
def strContains (haystack needle : String) : Bool :=
  subListAt needle.data haystack.data

/-- Is `b` a UTF-8 continuation byte? -/
def isCont (b : Nat) : Bool := 0x80 ≤ b && b ≤ 0xBF

/-- Strict UTF-8 decoding of a byte sequence, rejecting truncated sequences,
stray continuation bytes, overlong forms and surrogate code points — the
conditions under which Python's `bytes.decode()` raises `UnicodeDecodeError`. -/
def utf8Decode : List Nat → Option (List Char)
  | [] => some []
  | b :: rest =>
    if b < 0x80 then (Char.ofNat b :: ·) <$> utf8Decode rest
    else if 0xC2 ≤ b ∧ b ≤ 0xDF then
      match rest with
      | b2 :: rest2 =>
        if isCont b2 then
          (Char.ofNat ((b - 0xC0) * 64 + (b2 - 0x80)) :: ·) <$> utf8Decode rest2
        else none
      | _ => none
    else if 0xE0 ≤ b ∧ b ≤ 0xEF then
      match rest with
      | b2 :: b3 :: rest3 =>
        let okB2 :=
          if b = 0xE0 then 0xA0 ≤ b2 && b2 ≤ 0xBF
          else if b = 0xED then 0x80 ≤ b2 && b2 ≤ 0x9F
          else isCont b2
        if okB2 && isCont b3 then
          (Char.ofNat ((b - 0xE0) * 4096 + (b2 - 0x80) * 64 + (b3 - 0x80)) :: ·)
            <$> utf8Decode rest3
        else none
      | _ => none
    else if 0xF0 ≤ b ∧ b ≤ 0xF4 then
      match rest with
      | b2 :: b3 :: b4 :: rest4 =>
        let okB2 :=
          if b = 0xF0 then 0x90 ≤ b2 && b2 ≤ 0xBF
          else if b = 0xF4 then 0x80 ≤ b2 && b2 ≤ 0x8F
          else isCont b2
        if okB2 && isCont b3 && isCont b4 then
          (Char.ofNat ((b - 0xF0) * 262144 + (b2 - 0x80) * 4096 +
              (b3 - 0x80) * 64 + (b4 - 0x80)) :: ·) <$> utf8Decode rest4
        else none
      | _ => none
    else none

/-- Lookup in a Python dict modelled as an association list (first match wins;
`dictInsert` keeps keys unique). -/
def dictLookup : List (String × Nat) → String → Option Nat
  | [], _ => none
  | (k', v') :: rest, k => if k' = k then some v' else dictLookup rest k

/-- Python dict assignment `d[k] = v`: replace the binding when the key exists,
append it otherwise. -/
def dictInsert : List (String × Nat) → String → Nat → List (String × Nat)
  | [], k, v => [(k, v)]
  | (k', v') :: rest, k, v =>
    if k' = k then (k, v) :: rest else (k', v') :: dictInsert rest k v

/-! ## Status store (src/src/api.py)

`email_status_store` is a module-level dict mapping a message id to a mutable
`EmailStatus` object.  Python mutates those objects in place and hands out
references to them, so the store is modelled as a heap (list of records
addressed by position) plus an index from message ids to heap references. -/

/-- The `EmailStatus` pydantic model of src/src/api.py.  Timestamps are
abstract `Nat` clock values supplied by the caller (`datetime.utcnow()` is an
external effect); `details` is a finite string-keyed mapping. -/
structure EmailStatus where
  status : String
  message_id : String
  to_ : List String
  subject : String
  created_at : Nat
  updated_at : Nat
  details : Option (List (String × String))
  error : Option String
deriving Repr, DecidableEq

/-- The module-level `email_status_store` dict together with the heap of the
`EmailStatus` objects it points at.  `index` maps a message id to the heap
position of its (mutable) record. -/
structure Store where
  heap : List EmailStatus
  index : List (String × Nat)
deriving Repr, DecidableEq

def Store.empty : Store := ⟨[], []⟩

/-- Reading a heap reference: the current state of the Python object. -/
def Store.deref (st : Store) (r : Nat) : Option EmailStatus :=
  st.heap.get? r

/-- The `status` field of the record at reference `r`, when it exists. -/
def Store.statusAt (st : Store) (r : Nat) : Option String :=
  (st.heap.get? r).map EmailStatus.status

/-- The `error` field of the record at reference `r`, when it exists. -/
def Store.errorAt (st : Store) (r : Nat) : Option String :=
  (st.heap.get? r).bind EmailStatus.error

/-- `update_email_status` (src/src/api.py lines 30-42).  Unknown ids return
`None` (modelled `none`) without touching the store; otherwise the record is
mutated in place: `status` and `updated_at` are always overwritten, while
`error` and `details` are only overwritten when the supplied value is truthy
(`if error:` / `if details:`).  Returns the mutated object (its reference). -/
def update_email_status (st : Store) (now : Nat) (message_id status_arg : String)
    (error : Option String) (details : Option (List (String × String))) :
    Store × Option Nat :=
  match dictLookup st.index message_id with
  | none => (st, none)
  | some r =>
    match st.heap.get? r with
    | none => (st, none)
    | some old =>
      let updated : EmailStatus :=
        { old with
          status := status_arg
          updated_at := now
          error := if truthyStr error then error else old.error
          details := if truthyDict details then details else old.details }
      (⟨st.heap.set r updated, st.index⟩, some r)

/-- `create_email_status` (src/src/api.py lines 44-54).  The message id
`f"{uuid.uuid4().hex}@{Config.HOST}"` is an externally generated fresh string,
passed in as `fresh_id`; the new object is stored under it with state
`queued`.  Returns the reference to the new record. -/
def create_email_status (st : Store) (now : Nat) (fresh_id : String)
    (to_ : List String) (subject : String) : Store × Nat :=
  let r := st.heap.length
  let obj : EmailStatus :=
    ⟨"queued", fresh_id, to_, subject, now, now, none, none⟩
  (⟨st.heap ++ [obj], dictInsert st.index fresh_id r⟩, r)

/-- The `GET /emails/{message_id}` handler (src/src/api.py lines 232-249):
a 404 (modelled `none`) when the id is unknown, otherwise
`return email_status_store[message_id]` — the handler returns the stored
object itself, i.e. the live reference, not a copy. -/
def get_email_status (st : Store) (message_id : String) : Option Nat :=
  dictLookup st.index message_id

/-! ## The `/send-email` pipeline (src/src/api.py lines 128-230) -/

/-- Outcome of the network portion of the `try:` block (message submission to
the upstream relay): success, or an exception whose `str(e)` is `msg`. -/
inductive ForwardOutcome where
  | ok
  | failure (msg : String)
deriving Repr, DecidableEq

/-- `recipients.extend(l)` guarded by `if l:` as in api.py lines 192-195. -/
def pyExtend (base : List String) (opt : Option (List String)) : List String :=
  match opt with
  | none => base
  | some l => if l.isEmpty then base else base ++ l

/-- Result of one run of the `/send-email` handler.  `trace` records the
`status` field of the message's record after each of the three store writes
(create, the `sending` update, the final update); `relay_recipients` is the
`to_addrs` list passed to `server.send_message`, recorded on the success
path. -/
structure ApiRun where
  store : Store
  ref : Nat
  trace : List (Option String)
  response_ok : Bool
  relay_recipients : Option (List String)
deriving Repr, DecidableEq

/-- The `/send-email` handler (src/src/api.py lines 128-230): create a
`queued` record, move it to `sending`, run the forwarding block, and record
`sent` (with a details dict) on success or `failed` (with `error=str(e)`) on
an exception, in which case the handler re-raises as an HTTP 500
(`response_ok = false`). -/
def api_send_email (st : Store) (fresh_id : String) (t0 t1 t2 : Nat)
    (to_ : List String) (subject : String) (cc bcc : Option (List String))
    (outcome : ForwardOutcome) : ApiRun :=
  let c := create_email_status st t0 fresh_id to_ subject
  let st1 := c.1
  let r := c.2
  let st2 := (update_email_status st1 t1 fresh_id "sending" none none).1
  match outcome with
  | .ok =>
    let recipients := pyExtend (pyExtend to_ cc) bcc
    let st3 := (update_email_status st2 t2 fresh_id "sent" none
      (some [("recipients", String.intercalate ", " to_), ("subject", subject),
             ("timestamp", toString t2)])).1
    ⟨st3, r, [st1.statusAt r, st2.statusAt r, st3.statusAt r], true, some recipients⟩
  | .failure e =>
    let st3 := (update_email_status st2 t2 fresh_id "failed" (some e) none).1
    ⟨st3, r, [st1.statusAt r, st2.statusAt r, st3.statusAt r], false, none⟩

/-! ## Authenticator (src/src/server.py lines 18-35) -/

/-- aiosmtpd's `AuthResult`; `AuthResult(success=True)` leaves `handled` at its
default `True`. -/
structure AuthResult where
  success : Bool
  handled : Bool
deriving Repr, DecidableEq

/-- The `auth_data` argument: either an aiosmtpd `LoginPassword` pair — its
`login`/`password` fields are RAW BYTE strings as base64-decoded from the
client, with no UTF-8 validation performed by aiosmtpd — or a value of any
other type. -/
inductive AuthData where
  | loginPassword (login password : List Nat)
  | other
deriving Repr, DecidableEq

/-- The `Authenticator` class.  `server.py` constructs it from
`Config.SMTP_USERNAME` / `Config.SMTP_PASSWORD`, which are `Optional[str]`
read from the environment, so the stored fields may be `None`. -/
structure Authenticator where
  username : Option String
  password : Option String
deriving Repr, DecidableEq

/-- `Authenticator.__call__` (server.py lines 25-35): anything that is not a
`LoginPassword` is reported unhandled; otherwise `auth_data.login.decode()`
runs first and `auth_data.password.decode()` second — both strict UTF-8, so
undecodable presented bytes raise `UnicodeDecodeError`, which propagates
(there is no handler; no `AuthResult` is returned on that path) — and the
decoded strings are compared for equality against the stored credentials (a
Python `str == None` comparison is simply `False`). -/
def Authenticator.call (a : Authenticator) (d : AuthData) :
    Except String AuthResult :=
  match d with
  | .other => .ok ⟨false, false⟩
  | .loginPassword lb pb =>
    match utf8Decode lb with
    | none => .error "UnicodeDecodeError"
    | some lc =>
      match utf8Decode pb with
      | none => .error "UnicodeDecodeError"
      | some pc =>
        if some (String.mk lc) = a.username ∧ some (String.mk pc) = a.password then
          .ok ⟨true, true⟩
        else .ok ⟨false, true⟩

/-! ## Configuration and startup (src/src/config.py, src/src/server.py) -/

/-- The startup-relevant part of the `Config` class.  Note that the class
defines no `TLS_CERTFILE`/`TLS_KEYFILE` attributes at all. -/
structure PyConfig where
  ENABLE_AUTH : Bool
  ENABLE_TLS : Bool
  SMTP_USERNAME : Option String
  SMTP_PASSWORD : Option String
deriving Repr, DecidableEq

/-- `Config.validate` (src/src/config.py lines 37-65).  It only emits log
lines — its Lean type is a pure list of messages, so it can never abort
startup.  Only the decision-relevant warnings are modelled (the remaining
lines are unconditional echoes of the configuration). -/
def PyConfig.validate (c : PyConfig) : List String :=
  (if truthyStr c.SMTP_USERNAME && truthyStr c.SMTP_PASSWORD then
      ["- Authentication: Enabled"]
    else
      ["- Authentication: Disabled (SMTP_USERNAME and/or SMTP_PASSWORD not set)"])
  ++ (if c.ENABLE_TLS then
      ["TLS is enabled but certificate files must be mounted in the container"]
    else [])

/-- `SMTPServer.create_ssl_context` (src/src/server.py lines 58-68): returns
`None` when TLS is disabled; when TLS is enabled it reads
`self.config.TLS_CERTFILE`, an attribute the `Config` class never defines, so
the access raises `AttributeError` unconditionally. -/
def create_ssl_context (c : PyConfig) : Except String (Option Unit) :=
  if c.ENABLE_TLS then
    .error "AttributeError: type object Config has no attribute TLS_CERTFILE"
  else .ok none

/-- `SMTPServer.create_authenticator` (src/src/server.py lines 70-77): `None`
when authentication is disabled, otherwise an `Authenticator` holding whatever
(possibly `None`) credentials the configuration has — no check is made. -/
def create_authenticator (c : PyConfig) : Option Authenticator :=
  if c.ENABLE_AUTH then some ⟨c.SMTP_USERNAME, c.SMTP_PASSWORD⟩ else none

/-- The state of a successfully started aiosmtpd controller. -/
structure RunningServer where
  auth_required : Bool
  authenticator : Option Authenticator
  tls : Option Unit
deriving Repr, DecidableEq

/-- `SMTPServer.start` (src/src/server.py lines 79-107): build the SSL
context and the authenticator, then start the controller.  An exception from
`create_ssl_context` propagates and the server never begins accepting
connections; on `.ok` the controller is started and listening. -/
def smtp_server_start (c : PyConfig) : Except String RunningServer :=
  match create_ssl_context c with
  | .error e => .error e
  | .ok ctx => .ok ⟨c.ENABLE_AUTH, create_authenticator c, ctx⟩

/-! ## Message body extraction (src/src/handlers.py lines 122-151) -/

/-- One element of `msg.walk()`: its content type, its raw
`Content-Disposition` header (absent headers read back as `None`), and the
decoded text of its payload (`get_payload(decode=True).decode()`).  Decoding
of the payload bytes is outside this model: `payload` is the resulting
string. -/
structure Part where
  content_type : String
  content_disposition : Option String
  payload : String
deriving Repr, DecidableEq

/-- A parsed message as `_get_message_content` consumes it: either a
multipart message, given by its `msg.walk()` sequence in document order
(containers included; they carry a `multipart/...` content type), or a
single-part message with its declared content type and decoded payload
(`""` models a payload that is falsy, i.e. `None` or empty bytes). -/
inductive PyMessage where
  | multipart (parts : List Part)
  | single (content_type : String) (payload : String)
deriving Repr, DecidableEq

/-- The `not text_content` test of handlers.py: `None` and `""` are falsy. -/
def pyFalsySlot : Option String → Bool
  | none => true
  | some s => s == ""

/-- One iteration of the `for part in msg.walk()` loop (handlers.py lines
128-139), acting on the `(text_content, html_content)` accumulator. -/
def walkStep (acc : Option String × Option String) (p : Part) :
    Option String × Option String :=
  if strContains (pyStr p.content_disposition) "attachment" then acc
  else if p.content_type == "text/plain" && pyFalsySlot acc.1 then
    (some p.payload, acc.2)
  else if p.content_type == "text/html" && pyFalsySlot acc.2 then
    (acc.1, some p.payload)
  else acc

/-- `EmailHandler._get_message_content` (handlers.py lines 122-151): returns
the `(text_content, html_content)` pair. -/
def get_message_content : PyMessage → Option String × Option String
  | .multipart parts => parts.foldl walkStep (none, none)
  | .single ctype payload =>
    if payload == "" then (none, none)
    else if ctype == "text/plain" then (some payload, none)
    else if ctype == "text/html" then (none, some payload)
    else (some payload, none)

/-- The candidate filter of the walk: a part of the given content type whose
disposition does not mark it as an attachment. -/
def isCandidate (ctype : String) (p : Part) : Bool :=
  !strContains (pyStr p.content_disposition) "attachment" &&
    p.content_type == ctype

/-- What the walk actually computes for one slot (proved below): the payload
of the first candidate part whose decoded payload is non-empty; if every
candidate decodes to the empty string the slot ends as `some ""` when a
candidate exists at all, and `none` otherwise. -/
def slotResult (ctype : String) (parts : List Part) : Option String :=
  let cands := parts.filter (isCandidate ctype)
  match cands.find? (fun p => !(p.payload == "")) with
  | some p => some p.payload
  | none => if cands.isEmpty then none else some ""

/-- The specification's extraction rule, written from the spec's words: the
first non-attachment part of the given content type (in document order)
becomes the body, and later parts of an already-filled type are ignored. -/
def spec_first_body (ctype : String) (parts : List Part) : Option String :=
  ((parts.filter (isCandidate ctype)).head?).map Part.payload

/-- Single-slot restatement of the walk loop, used to factor the proof of the
walk characterization. -/
def slotFold (ctype : String) : List Part → Option String → Option String
  | [], t => t
  | p :: ps, t =>
    if strContains (pyStr p.content_disposition) "attachment" then
      slotFold ctype ps t
    else if p.content_type == ctype && pyFalsySlot t then
      slotFold ctype ps (some p.payload)
    else slotFold ctype ps t

/-! ## Address parsing (src/src/handlers.py lines 109-120)

`_parse_addresses` runs
`decoded = str(make_header(decode_header(address_string)))` and then
`getaddresses([decoded])`, with no exception handling.  The decode step is
library code (`email.header`), modelled here on the fragment these inputs
exercise: a string that is in its entirety a single RFC 2047 encoded word
`=?utf-8?q?...?=` is Q-decoded to bytes and then strictly UTF-8 decoded —
undecodable bytes raise `UnicodeDecodeError`, exactly as cpython does; any
other string is left unchanged (cpython decodes further shapes and can also
raise on them, so the model fails strictly less often than the library). -/

/-- Value of a hexadecimal digit, as quoted-printable decoding reads it
(code points 48-57 are the digits, 65-70 and 97-102 the hex letters). -/
def hexVal (c : Char) : Option Nat :=
  let n := c.toNat
  if 48 ≤ n && n ≤ 57 then some (n - 48)
  else if 65 ≤ n && n ≤ 70 then some (n - 55)
  else if 97 ≤ n && n ≤ 102 then some (n - 87)
  else none

/-- Header-mode quoted-printable decoding to bytes: `=XX` is a byte, `_` is a
space, every other character is its own code point, and a malformed escape is
kept literally (cpython's decoder is lenient in the same way). -/
def qDecode : List Char → List Nat
  | [] => []
  | '=' :: h1 :: h2 :: rest =>
    match hexVal h1, hexVal h2 with
    | some a, some b => (16 * a + b) :: qDecode rest
    | _, _ => '='.toNat :: qDecode (h1 :: h2 :: rest)
  | '_' :: rest => 32 :: qDecode rest
  | c :: rest => c.toNat :: qDecode rest

/-- Split a character list on a separator character. -/
def splitOnChar (sep : Char) : List Char → List (List Char)
  | [] => [[]]
  | c :: rest =>
    let r := splitOnChar sep rest
    if c == sep then [] :: r
    else
      match r with
      | [] => [[c]]
      | g :: gs => (c :: g) :: gs

/-- Recognize a string that is exactly one encoded word
`=?charset?encoding?data?=` (the shape `email.header.decode_header` extracts
here); returns `(charset, encoding, data)`. -/
def parseEncodedWord (s : String) : Option (String × String × List Char) :=
  match splitOnChar '?' s.data with
  | [e1, charset, enc, data, e2] =>
    if e1 = ['='] ∧ e2 = ['='] then
      some (String.mk charset, String.mk enc, data)
    else none
  | _ => none

/-- `str(make_header(decode_header(s)))`, modelled on the fragment described
above.  The error value stands for the `UnicodeDecodeError` the library
raises when the encoded word's bytes are invalid for its declared charset. -/
def decodeHeaderStr (s : String) : Except String String :=
  if strContains s "=?" = false then .ok s
  else
    match parseEncodedWord s with
    | none => .ok s
    | some (charset, enc, data) =>
      if charset == "utf-8" && (enc == "q" || enc == "Q") then
        match utf8Decode (qDecode data) with
        | some chars => .ok (String.mk chars)
        | none => .error "UnicodeDecodeError"
      else .ok s

/-- The address piece of one comma-separated token, as
`email.utils.getaddresses` extracts it (simplified to the two common shapes:
an angle-bracketed `Name <addr>` and a bare address; the address grammar
itself is not at issue in any claim, only the failure behaviour of the decode
step that precedes it). -/
def extractAddr (tok : List Char) : List Char :=
  match tok.dropWhile (· ≠ '<') with
  | _ :: rest => rest.takeWhile (· ≠ '>')
  | [] => tok.filter (· ≠ ' ')

/-- `[email for name, email in getaddresses([decoded])]`, simplified as
described at `extractAddr`. -/
def getaddresses_model (s : String) : List String :=
  (splitOnChar ',' s.data).map (fun tok => String.mk (extractAddr tok))

/-- `EmailHandler._parse_addresses` (handlers.py lines 109-120): empty header
strings short-circuit to `[]`; otherwise the header is decoded and then split
into addresses.  There is no exception handling, so a decode failure
propagates to the caller (`Except.error`). -/
def parse_addresses (address_string : String) : Except String (List String) :=
  if address_string == "" then .ok []
  else
    match decodeHeaderStr address_string with
    | .error e => .error e
    | .ok decoded => .ok (getaddresses_model decoded)

/-! ## Relay forwarder (src/src/utils.py lines 12-119) -/

/-- One attached MIME part of the outgoing message: a `MIMEText(content,
subtype)` body or a `MIMEApplication` attachment. -/
inductive MsgPart where
  | text (subtype : String) (content : String)
  | application (filename : String) (payload : List Nat) (mime_type : String)
deriving Repr, DecidableEq

/-- The `MIMEMultipart` container built by `utils.send_email`: its multipart
subtype, its headers in insertion order, and its attached parts in attachment
order. -/
structure MIMEMessage where
  subtype : String
  headers : List (String × String)
  parts : List MsgPart
deriving Repr, DecidableEq

/-- Observable result of one call to `utils.send_email`: the returned
boolean, the message that was constructed (if construction was reached),
whether an SMTP connection was attempted, and the `(from_addr, to_addrs)`
envelope passed to `server.sendmail` when the network sequence succeeded. -/
structure SendCall where
  result : Bool
  message : Option MIMEMessage
  connection_attempted : Bool
  envelope : Option (String × List String)
deriving Repr, DecidableEq

/-- The contribution of an optional list under utils.py's `if cc:` guards
(lines 61-64 and 82-88): nothing when the value is falsy, the list itself
otherwise. -/
def pyListOrEmpty (o : Option (List String)) : List String :=
  match o with
  | some l => if l.isEmpty then [] else l
  | none => []

/-- `send_email` (src/src/utils.py lines 12-119).  `date_header` and `msgid`
stand for the externally produced `formatdate()` / `make_msgid()` strings;
`net_ok` abstracts the network portion (connect, optional STARTTLS, optional
login, sendmail): `false` means some step of it raised, in which case the
exception is caught and `False` is returned.  The guard at lines 49-51
returns `False` before any message is constructed or any connection is
attempted when recipients, cc and bcc are all falsy. -/
def utils_send_email (sender : String) (recipients : List String)
    (subject body : String) (html_body : Option String)
    (cc bcc : Option (List String))
    (attachments : Option (List (String × List Nat × String)))
    (date_header msgid : String) (net_ok : Bool) : SendCall :=
  if recipients.isEmpty && !truthyList cc && !truthyList bcc then
    ⟨false, none, false, none⟩
  else
    let headers :=
      [("From", sender), ("To", String.intercalate ", " recipients),
       ("Date", date_header), ("Subject", subject), ("Message-ID", msgid)]
      ++ (match cc with
          | some l => if l.isEmpty then [] else [("Cc", String.intercalate ", " l)]
          | none => [])
      ++ (match bcc with
          | some l => if l.isEmpty then [] else [("Bcc", String.intercalate ", " l)]
          | none => [])
    let parts :=
      [MsgPart.text "plain" body]
      ++ (if truthyStr html_body then [MsgPart.text "html" (pyStr html_body)] else [])
      ++ (match attachments with
          | some l =>
            if l.isEmpty then []
            else l.map (fun a => MsgPart.application a.1 a.2.1 a.2.2)
          | none => [])
    let msg : MIMEMessage :=
      ⟨if truthyStr html_body then "alternative" else "mixed", headers, parts⟩
    let all_recipients :=
      (if recipients.isEmpty then [] else recipients)
      ++ pyListOrEmpty cc ++ pyListOrEmpty bcc
    if net_ok then ⟨true, some msg, true, some (sender, all_recipients)⟩
    else ⟨false, some msg, true, none⟩

/-! ## Helper lemmas -/

theorem dictLookup_dictInsert_self (l : List (String × Nat)) (k : String) (v : Nat) :
    dictLookup (dictInsert l k v) k = some v := by
  induction l with
  | nil => simp [dictInsert, dictLookup]
  | cons p rest ih =>
    by_cases h : p.1 = k
    · simp [dictInsert, dictLookup, h]
    · simp [dictInsert, dictLookup, h, ih]

theorem get_append_len {α : Type} (l : List α) (a : α) :
    (l ++ [a]).get? l.length = some a := by
  induction l with
  | nil => rfl
  | cons b t ih => simp [ih]

theorem set_append_len {α : Type} (l : List α) (a b : α) :
    (l ++ [a]).set l.length b = l ++ [b] := by
  induction l with
  | nil => rfl
  | cons c t ih => simp [List.set, ih]

theorem get_set_self {α : Type} (l : List α) (r : Nat) (a b : α)
    (h : l.get? r = some a) : (l.set r b).get? r = some b := by
  induction l generalizing r with
  | nil => simp [List.get?] at h
  | cons c t ih =>
    cases r with
    | zero => rfl
    | succ n => simpa using ih n (by simpa using h)

/-- `update_email_status` on a present id, written out: the record at the
looked-up reference is replaced by its updated version and the reference is
returned. -/
theorem update_email_status_found (st : Store) (now : Nat) (id s : String)
    (err : Option String) (det : Option (List (String × String))) (r : Nat)
    (old : EmailStatus) (hidx : dictLookup st.index id = some r)
    (hheap : st.heap.get? r = some old) :
    update_email_status st now id s err det =
      (⟨st.heap.set r
        { old with
            status := s
            updated_at := now
            error := if truthyStr err then err else old.error
            details := if truthyDict det then det else old.details },
        st.index⟩, some r) := by
  simp only [update_email_status, hidx, hheap]

/-- `update_email_status` applied to the store shape produced by
`create_email_status` (or by a previous such update). -/
theorem update_after_append (heap : List EmailStatus) (idx : List (String × Nat))
    (fid : String) (obj : EmailStatus) (now : Nat) (s : String)
    (err : Option String) (det : Option (List (String × String))) :
    update_email_status ⟨heap ++ [obj], dictInsert idx fid heap.length⟩ now fid s err det =
      (⟨heap ++ [{ obj with
          status := s
          updated_at := now
          error := if truthyStr err then err else obj.error
          details := if truthyDict det then det else obj.details }],
        dictInsert idx fid heap.length⟩, some heap.length) := by
  rw [update_email_status_found _ _ _ _ _ _ heap.length obj
    (dictLookup_dictInsert_self idx fid heap.length) (get_append_len heap obj)]
  simp [set_append_len]

theorem statusAt_append (heap : List EmailStatus) (idx : List (String × Nat))
    (obj : EmailStatus) :
    Store.statusAt ⟨heap ++ [obj], idx⟩ heap.length = some obj.status := by
  simp [Store.statusAt, get_append_len]

theorem errorAt_append (heap : List EmailStatus) (idx : List (String × Nat))
    (obj : EmailStatus) :
    Store.errorAt ⟨heap ++ [obj], idx⟩ heap.length = obj.error := by
  simp [Store.errorAt, get_append_len]

theorem pyExtend_eq (base : List String) (opt : Option (List String)) :
    pyExtend base opt = base ++ opt.getD [] := by
  match opt with
  | none => simp [pyExtend]
  | some l =>
    by_cases h : l.isEmpty
    · simp_all [pyExtend, List.isEmpty_iff]
    · simp [pyExtend, h]

theorem pyListOrEmpty_eq (o : Option (List String)) :
    pyListOrEmpty o = o.getD [] := by
  match o with
  | none => rfl
  | some l =>
    by_cases h : l.isEmpty
    · simp_all [pyListOrEmpty, List.isEmpty_iff]
    · simp [pyListOrEmpty, h]

theorem ifEmptySelf (l : List String) :
    (if l.isEmpty then ([] : List String) else l) = l := by
  by_cases h : l.isEmpty <;> simp_all [List.isEmpty_iff]

/-- The pair-valued walk loop splits into two independent single-slot loops:
the `text/plain` branch never touches the html slot and conversely, because a
part has a single content type. -/
theorem foldl_walkStep_eq (parts : List Part) (t h : Option String) :
    parts.foldl walkStep (t, h) =
      (slotFold "text/plain" parts t, slotFold "text/html" parts h) := by
  induction parts generalizing t h with
  | nil => rfl
  | cons p ps ih =>
    by_cases hatt : strContains (pyStr p.content_disposition) "attachment" = true
    · simp [walkStep, slotFold, hatt, ih]
    · by_cases hplain : (p.content_type == "text/plain") = true
      · have hhtml : (p.content_type == "text/html") = false := by
          simp_all
        by_cases hft : pyFalsySlot t = true
        · simp [walkStep, slotFold, hatt, hplain, hhtml, hft, ih]
        · simp [walkStep, slotFold, hatt, hplain, hhtml, hft, ih]
      · by_cases hhtml : (p.content_type == "text/html") = true
        · by_cases hfh : pyFalsySlot h = true
          · simp [walkStep, slotFold, hatt, hplain, hhtml, hfh, ih]
          · simp [walkStep, slotFold, hatt, hplain, hhtml, hfh, ih]
        · simp [walkStep, slotFold, hatt, hplain, hhtml, ih]

/-- Closed form of the single-slot walk loop: starting from a falsy slot it
returns the payload of the first candidate with non-empty payload, or `""`
(assigned but falsy) when candidates exist but all decode empty, or the
initial slot when there is no candidate; a truthy slot is never changed. -/
theorem slotFold_eq (ctype : String) (parts : List Part) (t : Option String) :
    slotFold ctype parts t =
      if pyFalsySlot t then
        (match (parts.filter (isCandidate ctype)).find? (fun p => !(p.payload == "")) with
         | some p => some p.payload
         | none =>
           if (parts.filter (isCandidate ctype)).isEmpty then t else some "")
      else t := by
  induction parts generalizing t with
  | nil => simp [slotFold]
  | cons p ps ih =>
    by_cases hatt : strContains (pyStr p.content_disposition) "attachment" = true
    · have hcand : isCandidate ctype p = false := by simp [isCandidate, hatt]
      simp [slotFold, hatt, hcand, ih]
    · by_cases hct : (p.content_type == ctype) = true
      · have hcand : isCandidate ctype p = true := by simp [isCandidate, hatt, hct]
        by_cases hft : pyFalsySlot t = true
        · by_cases hpe : (p.payload == "") = true
          · have hfp : pyFalsySlot (some p.payload) = true := by
              simp [pyFalsySlot, hpe]
            simp only [slotFold, hatt, hct, hft, Bool.and_self, if_true, if_false,
              Bool.false_eq_true, ite_true, ite_false, Bool.and_true, Bool.true_and]
            rw [ih]
            simp only [hfp, if_true, List.filter_cons, hcand, ite_true]
            rw [List.find?]
            simp only [hpe, Bool.not_true]
            have hemp : ((p :: ps.filter (isCandidate ctype)).isEmpty) = false := rfl
            cases hfind : (ps.filter (isCandidate ctype)).find? (fun q => !(q.payload == "")) with
            | none =>
              simp only [hfind, hemp, if_false, Bool.false_eq_true, ite_false, hft, ite_true]
              by_cases hre : (ps.filter (isCandidate ctype)).isEmpty = true
              · simp only [hre, ite_true]
                have : p.payload = "" := by simpa using hpe
                simp [this]
              · simp [hre]
            | some q => simp [hfind, hemp, hft]
          · have hfp : pyFalsySlot (some p.payload) = false := by
              simp [pyFalsySlot, hpe]
            simp only [slotFold, hatt, hct, hft, Bool.and_self, if_true, if_false,
              Bool.false_eq_true, ite_true, ite_false, Bool.and_true, Bool.true_and]
            rw [ih]
            simp only [hfp, if_false, List.filter_cons, hcand, ite_true, Bool.false_eq_true,
              ite_false]
            rw [List.find?]
            simp [hpe, hft]
        · simp only [slotFold, hatt, hct, hft, Bool.and_false, if_false,
            Bool.false_eq_true, ite_false]
          rw [ih]
          simp [hft]
      · have hcand : isCandidate ctype p = false := by simp [isCandidate, hct]
        simp [slotFold, hatt, hct, hcand, ih]

/-- The walk of `_get_message_content` computes `slotResult` for each slot. -/
theorem get_message_content_multipart (parts : List Part) :
    get_message_content (.multipart parts) =
      (slotResult "text/plain" parts, slotResult "text/html" parts) := by
  show parts.foldl walkStep (none, none) = _
  rw [foldl_walkStep_eq, slotFold_eq, slotFold_eq]
  simp only [slotResult, pyFalsySlot, ite_true]

/-! ## Claims -/

/-- C1 (amended): every run of the `/send-email` pipeline drives its status
record through exactly `queued`, then `sending`, then `sent` on a successful
forward or `failed` on a forwarder failure; no other sequence is reachable.
On failure the error field holds the exception's message when that message is
non-empty, and is left unset (`None`) when the message is empty — the
`if error:` guard of `update_email_status` drops an empty error string. -/
theorem api_pipeline_states (st : Store) (fresh_id : String) (t0 t1 t2 : Nat)
    (to_ : List String) (subject : String) (cc bcc : Option (List String))
    (outcome : ForwardOutcome) :
    (api_send_email st fresh_id t0 t1 t2 to_ subject cc bcc outcome).trace =
      [some "queued", some "sending",
        some (match outcome with | .ok => "sent" | .failure _ => "failed")] ∧
    Store.errorAt (api_send_email st fresh_id t0 t1 t2 to_ subject cc bcc outcome).store
        (api_send_email st fresh_id t0 t1 t2 to_ subject cc bcc outcome).ref =
      (match outcome with
       | .ok => none
       | .failure e => if e = "" then none else some e) := by
  cases outcome with
  | ok =>
    simp [api_send_email, create_email_status, update_after_append,
      statusAt_append, errorAt_append, truthyStr, truthyDict]
  | failure e =>
    by_cases he : e = "" <;>
      simp [api_send_email, create_email_status, update_after_append,
        statusAt_append, errorAt_append, truthyStr, truthyDict, he]

/-- C1 fails as stated: a forwarder failure whose exception stringifies to
the empty string (Python's `str(Exception())` is `""`) drives the record to
the terminal state `failed` with NO error recorded, because the `if error:`
guard in `update_email_status` discards the empty string — so a record can
terminate `failed` without a non-empty error string. -/
theorem api_failure_empty_error_cex :
    (api_send_email Store.empty "m1@h" 0 1 2 ["a@b.c"] "s" none none
        (.failure "")).trace =
      [some "queued", some "sending", some "failed"] ∧
    Store.errorAt
      (api_send_email Store.empty "m1@h" 0 1 2 ["a@b.c"] "s" none none
        (.failure "")).store
      (api_send_email Store.empty "m1@h" 0 1 2 ["a@b.c"] "s" none none
        (.failure "")).ref = none := by
  decide

/-- C2 (amended): in a multipart message the walk skips attachment-marked
parts; each slot receives the first non-attachment part of its type whose
decoded payload is NON-EMPTY — a part decoding to the empty string fills the
slot with a falsy value that a later part of the same type may overwrite, so
when every candidate decodes empty the slot ends `""` (or stays absent when
there is no candidate at all).  A single-part message with truthy payload is
routed by declared type, any other type being treated as text; a falsy
payload leaves both bodies absent. -/
theorem message_content_extraction (parts : List Part) (ctype payload : String) :
    get_message_content (.multipart parts) =
      (slotResult "text/plain" parts, slotResult "text/html" parts) ∧
    (¬payload = "" →
      get_message_content (.single ctype payload) =
        (if ctype = "text/plain" then (some payload, none)
         else if ctype = "text/html" then (none, some payload)
         else (some payload, none))) ∧
    (payload = "" → get_message_content (.single ctype payload) = (none, none)) := by
  refine ⟨get_message_content_multipart parts, ?_, ?_⟩
  · intro hp
    by_cases h1 : ctype = "text/plain" <;>
      by_cases h2 : ctype = "text/html" <;>
        simp_all [get_message_content]
  · intro hp
    simp [get_message_content, hp]

/-- Witness for `message_content_extraction`: a single-part HTML message is
routed to the html slot. -/
theorem message_content_extraction_wit :
    get_message_content (PyMessage.single "text/html" "<p>hello</p>") =
      (if "text/html" = "text/plain" then (some "<p>hello</p>", none)
       else if "text/html" = "text/html" then (none, some "<p>hello</p>")
       else (some "<p>hello</p>", none)) :=
  (message_content_extraction [] "text/html" "<p>hello</p>").2.1 (by decide)

/-- C2 fails as stated: in a multipart message whose first `text/plain` part
decodes to the empty string, the code's `not text_content` test treats the
slot as unfilled and a LATER `text/plain` part overwrites it, while the
specified rule (first part in document order, later parts of a filled type
ignored) would keep the first part's empty body. -/
theorem message_content_first_part_cex :
    get_message_content (.multipart
        [⟨"multipart/alternative", none, ""⟩,
         ⟨"text/plain", none, ""⟩,
         ⟨"text/plain", none, "second"⟩]) = (some "second", none) ∧
    spec_first_body "text/plain"
        [⟨"multipart/alternative", none, ""⟩,
         ⟨"text/plain", none, ""⟩,
         ⟨"text/plain", none, "second"⟩] = some "" ∧
    ¬(get_message_content (.multipart
        [⟨"multipart/alternative", none, ""⟩,
         ⟨"text/plain", none, ""⟩,
         ⟨"text/plain", none, "second"⟩])).1 =
      spec_first_body "text/plain"
        [⟨"multipart/alternative", none, ""⟩,
         ⟨"text/plain", none, ""⟩,
         ⟨"text/plain", none, "second"⟩] := by
  decide

/-- C3: `update_email_status` on a message id absent from the store returns
the not-found indicator `None` and leaves the store completely unchanged — in
particular it never creates a new entry. -/
theorem update_unknown_id_noop (st : Store) (now : Nat) (id s : String)
    (err : Option String) (det : Option (List (String × String)))
    (h : dictLookup st.index id = none) :
    update_email_status st now id s err det = (st, none) := by
  simp only [update_email_status, h]

/-- Witness for `update_unknown_id_noop` at a concrete store and input. -/
theorem update_unknown_id_noop_wit :
    update_email_status Store.empty 5 "m1@h" "failed" (some "boom") none =
      (Store.empty, none) :=
  update_unknown_id_noop Store.empty 5 "m1@h" "failed" (some "boom") none rfl

/-- C4 (amended): the authenticator returns success exactly when both
presented byte strings decode under strict UTF-8 and the decoded strings
equal the configured pair (equivalently, the presented bytes are
byte-for-byte the UTF-8 encoding of the configured strings, since strict
decoding is injective); any non-`LoginPassword` auth datum yields a failure
marked unhandled; a DECODABLE non-matching pair yields a failure marked
handled; but a pair containing undecodable bytes yields no failure result at
all — `auth_data.login.decode()` / `.password.decode()` raise
`UnicodeDecodeError`, which propagates out of `__call__`. -/
theorem authenticator_exact_match (u p : String) (lb pb : List Nat) :
    Authenticator.call ⟨some u, some p⟩ AuthData.other = .ok ⟨false, false⟩ ∧
    (∀ lc pc, utf8Decode lb = some lc → utf8Decode pb = some pc →
      ((Authenticator.call ⟨some u, some p⟩ (AuthData.loginPassword lb pb) =
          .ok ⟨true, true⟩) ↔ (String.mk lc = u ∧ String.mk pc = p)) ∧
      (¬(String.mk lc = u ∧ String.mk pc = p) →
        Authenticator.call ⟨some u, some p⟩ (AuthData.loginPassword lb pb) =
          .ok ⟨false, true⟩)) ∧
    (utf8Decode lb = none →
      Authenticator.call ⟨some u, some p⟩ (AuthData.loginPassword lb pb) =
        .error "UnicodeDecodeError") ∧
    (∀ lc, utf8Decode lb = some lc → utf8Decode pb = none →
      Authenticator.call ⟨some u, some p⟩ (AuthData.loginPassword lb pb) =
        .error "UnicodeDecodeError") := by
  refine ⟨rfl, ?_, ?_, ?_⟩
  · intro lc pc hl hp
    have hcond : (some (String.mk lc) = some u ∧ some (String.mk pc) = some p) ↔
        (String.mk lc = u ∧ String.mk pc = p) := by simp
    constructor
    · simp only [Authenticator.call, hl, hp]
      by_cases h : String.mk lc = u ∧ String.mk pc = p
      · rw [if_pos (hcond.mpr h)]
        simp [h]
      · rw [if_neg (fun hc => h (hcond.mp hc))]
        constructor
        · intro he
          simp at he
        · intro hc
          exact absurd hc h
    · intro h
      simp only [Authenticator.call, hl, hp]
      rw [if_neg (fun hc => h (hcond.mp hc))]
  · intro hl
    simp only [Authenticator.call, hl]
  · intro lc hl hp
    simp only [Authenticator.call, hl, hp]

/-- Witness for `authenticator_exact_match`: a decodable but wrong password
is a handled failure (login bytes spell `user`, password byte spells `w`). -/
theorem authenticator_exact_match_wit :
    Authenticator.call ⟨some "user", some "secret"⟩
        (AuthData.loginPassword [117, 115, 101, 114] [119]) = .ok ⟨false, true⟩ :=
  ((authenticator_exact_match "user" "secret" [117, 115, 101, 114] [119]).2.1
    ['u', 's', 'e', 'r'] ['w'] rfl rfl).2 (by decide)

/-- C4 fails as stated: aiosmtpd delivers `LoginPassword` fields as raw,
un-validated bytes; for the presented login bytes `[0xFF]` — not valid UTF-8
and in particular not matching any configured pair — `__call__` raises
`UnicodeDecodeError` at `auth_data.login.decode()` instead of returning a
failure result marked handled. -/
theorem authenticator_undecodable_cex :
    Authenticator.call ⟨some "user", some "secret"⟩
        (AuthData.loginPassword [255] [112, 119]) = .error "UnicodeDecodeError" := by
  rfl

/-- C5 (amended): the status query hands back the live reference to the
stored record, not an immutable snapshot: the reference it returns is exactly
the one the store mutates, so after a subsequent update the value observed
through the earlier query's result is the UPDATED record. -/
theorem get_returns_live_reference (st : Store) (id s : String) (now : Nat)
    (err : Option String) (det : Option (List (String × String))) (r : Nat)
    (old : EmailStatus) (hidx : dictLookup st.index id = some r)
    (hheap : st.heap.get? r = some old) :
    get_email_status st id = some r ∧
    (update_email_status st now id s err det).1.deref r =
      some { old with
        status := s
        updated_at := now
        error := if truthyStr err then err else old.error
        details := if truthyDict det then det else old.details } := by
  refine ⟨hidx, ?_⟩
  rw [update_email_status_found st now id s err det r old hidx hheap]
  exact get_set_self st.heap r old _ hheap

/-- Witness for `get_returns_live_reference` at a concrete store. -/
theorem get_returns_live_reference_wit :
    get_email_status ⟨[⟨"queued", "m1@h", ["a@b.c"], "s", 0, 0, none, none⟩],
        [("m1@h", 0)]⟩ "m1@h" = some 0 ∧
    (update_email_status ⟨[⟨"queued", "m1@h", ["a@b.c"], "s", 0, 0, none, none⟩],
        [("m1@h", 0)]⟩ 1 "m1@h" "failed" (some "boom") none).1.deref 0 =
      some { (⟨"queued", "m1@h", ["a@b.c"], "s", 0, 0, none, none⟩ : EmailStatus) with
        status := "failed"
        updated_at := 1
        error := if truthyStr (some "boom") then some "boom" else none
        details := if truthyDict none then none else none } :=
  get_returns_live_reference _ "m1@h" "failed" 1 (some "boom") none 0 _ rfl rfl

/-- C5 fails as stated: concretely, the value returned by a query (the record
reachable through the returned reference) changes when the id is updated
afterwards — the query returned a live reference, not a snapshot. -/
theorem get_live_reference_cex :
    get_email_status (create_email_status Store.empty 0 "m1@h" ["a@b.c"] "s").1
        "m1@h" = some 0 ∧
    ¬((create_email_status Store.empty 0 "m1@h" ["a@b.c"] "s").1.deref 0 =
      (update_email_status (create_email_status Store.empty 0 "m1@h" ["a@b.c"] "s").1
          1 "m1@h" "failed" (some "boom") none).1.deref 0) := by
  decide

/-- C6 (amended): `_parse_addresses` decodes encoded-word syntax before
splitting the header into addresses, and a header without encoded-word
structure is used raw; but there is no exception handling, so a decode
failure (undecodable bytes for the declared charset inside an encoded word)
propagates — address parsing CAN fail fatally, exactly when the decode step
fails. -/
theorem parse_addresses_error_iff (s e : String) :
    (parse_addresses s = .error e ↔ (¬s = "" ∧ decodeHeaderStr s = .error e)) ∧
    (strContains s "=?" = false → ¬s = "" →
      parse_addresses s = .ok (getaddresses_model s)) := by
  constructor
  · by_cases hs : s = ""
    · simp [parse_addresses, hs]
    · cases hd : decodeHeaderStr s <;> simp [parse_addresses, hs, hd]
  · intro h1 h2
    simp [parse_addresses, decodeHeaderStr, h1, h2]

/-- Witness for `parse_addresses_error_iff`: a plain address list passes
through the decode step unchanged and is split. -/
theorem parse_addresses_error_iff_wit :
    parse_addresses "A <a@b.c>, c@d.e" =
      .ok (getaddresses_model "A <a@b.c>, c@d.e") :=
  (parse_addresses_error_iff "A <a@b.c>, c@d.e" "").2 (by decide) (by decide)

/-- C6 fails as stated: the concrete header `=?utf-8?q?=FF?=` is a
well-formed encoded word whose Q-decoded byte `0xFF` is not valid UTF-8;
`str(make_header(decode_header(...)))` raises `UnicodeDecodeError` and
`_parse_addresses` has no handler, so parsing fails fatally instead of
degrading to the raw string. -/
theorem parse_addresses_decode_failure_cex :
    parse_addresses "=?utf-8?q?=FF?=" = .error "UnicodeDecodeError" := by
  rfl

/-- C7 (amended): whenever the forward proceeds (some recipient present) and
the network sequence succeeds, the envelope passed to `server.sendmail` is
exactly To ++ Cc ++ Bcc in that order; the constructed message carries the
plain-text body part and, when a NON-EMPTY HTML body is supplied, the HTML
part — a present-but-empty HTML body is dropped by the `if html_body:`
truthiness guard and no HTML part is attached; and the API pipeline passes
the same To ++ Cc ++ Bcc envelope to `server.send_message`. -/
theorem forward_envelope_and_bodies (sender : String) (recipients : List String)
    (subject body : String) (html_body : Option String)
    (cc bcc : Option (List String))
    (attachments : Option (List (String × List Nat × String)))
    (date_header msgid : String) (st : Store) (fresh_id : String)
    (t0 t1 t2 : Nat)
    (hr : (recipients.isEmpty && !truthyList cc && !truthyList bcc) = false) :
    (utils_send_email sender recipients subject body html_body cc bcc
        attachments date_header msgid true).envelope =
      some (sender, recipients ++ cc.getD [] ++ bcc.getD []) ∧
    (∃ m, (utils_send_email sender recipients subject body html_body cc bcc
        attachments date_header msgid true).message = some m ∧
      MsgPart.text "plain" body ∈ m.parts ∧
      (∀ hb, html_body = some hb → ¬hb = "" →
        MsgPart.text "html" hb ∈ m.parts) ∧
      (html_body = some "" → ¬MsgPart.text "html" "" ∈ m.parts)) ∧
    (api_send_email st fresh_id t0 t1 t2 recipients subject cc bcc
        .ok).relay_recipients =
      some (recipients ++ cc.getD [] ++ bcc.getD []) := by
  refine ⟨?_, ?_, ?_⟩
  · simp only [utils_send_email, hr, Bool.false_eq_true, if_false, ite_true,
      if_true, ite_false]
    rw [ifEmptySelf, pyListOrEmpty_eq, pyListOrEmpty_eq]
  · simp only [utils_send_email, hr, Bool.false_eq_true, if_false, ite_true,
      if_true, ite_false]
    refine ⟨_, rfl, by simp, ?_, ?_⟩
    · intro hb hhb hne
      subst hhb
      have htr : truthyStr (some hb) = true := by simp [truthyStr, hne]
      simp [htr, pyStr]
    · intro hhb
      subst hhb
      have htr : truthyStr (some "") = false := rfl
      simp only [htr, Bool.false_eq_true, if_false, ite_false, List.nil_append]
      intro hmem
      rcases List.mem_append.mp hmem with h | h
      · simp at h
      · cases attachments with
        | none => simp at h
        | some l =>
          by_cases he : l.isEmpty
          · simp [he] at h
          · simp [he, List.mem_map] at h
  · simp [api_send_email, pyExtend_eq, List.append_assoc]

/-- Witness for `forward_envelope_and_bodies` at concrete inputs: the
envelope of a concrete call is the To ++ Cc ++ Bcc concatenation. -/
theorem forward_envelope_and_bodies_wit :
    (utils_send_email "s@x.y" ["a@b.c"] "subj" "body" (some "<p>h</p>")
        (some ["c@d.e"]) none none "date" "mid" true).envelope =
      some ("s@x.y", ["a@b.c"] ++ (some ["c@d.e"]).getD [] ++ none.getD []) :=
  (forward_envelope_and_bodies "s@x.y" ["a@b.c"] "subj" "body" (some "<p>h</p>")
    (some ["c@d.e"]) none none "date" "mid" Store.empty "m1@h" 0 1 2
    (by decide)).1

/-- C7 fails as stated: for a present-but-empty HTML body (`html_body`
supplied as `""`), the `if html_body:` truthiness guard drops it — the
constructed message consists of the plain part alone (and the container
subtype falls back to `mixed`), so the serialized message does not include
the HTML body even though one was present. -/
theorem forward_empty_html_cex :
    (utils_send_email "s@x.y" ["a@b.c"] "subj" "body" (some "") none none none
        "date" "mid" true).message =
      some ⟨"mixed",
        [("From", "s@x.y"), ("To", "a@b.c"), ("Date", "date"),
         ("Subject", "subj"), ("Message-ID", "mid")],
        [MsgPart.text "plain" "body"]⟩ ∧
    ¬MsgPart.text "html" "" ∈ [MsgPart.text "plain" "body"] := by
  constructor
  · rfl
  · decide

/-- C8 (amended): startup success is decided solely by the TLS flag — when
TLS is enabled startup always fails (the `Config` class defines no
certificate attributes, so building the SSL context raises), and when TLS is
disabled the server starts unconditionally: `Config.validate` only logs, so
enabling authentication with a missing credential pair does NOT prevent
startup; the server begins accepting connections with `None` credentials. -/
theorem startup_ok_iff_no_tls (c : PyConfig) :
    (smtp_server_start c).isOk = !c.ENABLE_TLS ∧
    (c.ENABLE_TLS = false →
      smtp_server_start c = .ok ⟨c.ENABLE_AUTH, create_authenticator c, none⟩) := by
  constructor
  · by_cases h : c.ENABLE_TLS <;>
      simp [smtp_server_start, create_ssl_context, h, Except.isOk, Except.toBool]
  · intro h
    simp [smtp_server_start, create_ssl_context, h]

/-- Witness for `startup_ok_iff_no_tls`: the concrete auth-enabled,
credential-less, TLS-less configuration starts. -/
theorem startup_ok_iff_no_tls_wit :
    smtp_server_start ⟨true, false, none, none⟩ =
      .ok ⟨true, create_authenticator ⟨true, false, none, none⟩, none⟩ :=
  (startup_ok_iff_no_tls ⟨true, false, none, none⟩).2 rfl

/-- C8 fails as stated: with authentication enabled and no credential pair
configured (TLS off), `Config.validate` merely returns a warning line and
`SMTPServer.start` succeeds — the process starts accepting connections
instead of refusing to start. -/
theorem startup_missing_credentials_cex :
    (smtp_server_start ⟨true, false, none, none⟩).isOk = true ∧
    PyConfig.validate ⟨true, false, none, none⟩ =
      ["- Authentication: Disabled (SMTP_USERNAME and/or SMTP_PASSWORD not set)"] := by
  constructor
  · rfl
  · rfl

/-- C9: an update of a present id with no (or an empty) error string and no
details overwrites only `status` and `updated_at`; every other field of the
record — `error` and `details` in particular — keeps its previous value. -/
theorem update_preserves_error_details (st : Store) (now : Nat) (id s : String)
    (err : Option String) (det : Option (List (String × String))) (r : Nat)
    (old : EmailStatus) (hidx : dictLookup st.index id = some r)
    (hheap : st.heap.get? r = some old) :
    ∃ upd : EmailStatus,
      update_email_status st now id s err det =
        (⟨st.heap.set r upd, st.index⟩, some r) ∧
      upd.status = s ∧ upd.updated_at = now ∧
      upd.message_id = old.message_id ∧ upd.to_ = old.to_ ∧
      upd.subject = old.subject ∧ upd.created_at = old.created_at ∧
      ((err = none ∨ err = some "") → upd.error = old.error) ∧
      (det = none → upd.details = old.details) := by
  refine ⟨_, update_email_status_found st now id s err det r old hidx hheap,
    rfl, rfl, rfl, rfl, rfl, rfl, ?_, ?_⟩
  · rintro (h | h) <;> simp [h, truthyStr]
  · rintro rfl; simp [truthyDict]

/-- Witness for `update_preserves_error_details` at a concrete store. -/
theorem update_preserves_error_details_wit :
    ∃ upd : EmailStatus,
      update_email_status ⟨[⟨"queued", "m1@h", ["a@b.c"], "s", 0, 0,
          some [("k", "v")], some "old"⟩], [("m1@h", 0)]⟩ 7 "m1@h" "sending"
          none none =
        (⟨(([⟨"queued", "m1@h", ["a@b.c"], "s", 0, 0, some [("k", "v")],
            some "old"⟩] : List EmailStatus).set 0 upd), [("m1@h", 0)]⟩, some 0) ∧
      upd.status = "sending" ∧ upd.updated_at = 7 ∧
      upd.message_id = "m1@h" ∧ upd.to_ = ["a@b.c"] ∧
      upd.subject = "s" ∧ upd.created_at = 0 ∧
      (((none : Option String) = none ∨ (none : Option String) = some "") →
        upd.error = some "old") ∧
      ((none : Option (List (String × String))) = none →
        upd.details = some [("k", "v")]) :=
  update_preserves_error_details
    ⟨[⟨"queued", "m1@h", ["a@b.c"], "s", 0, 0, some [("k", "v")], some "old"⟩],
      [("m1@h", 0)]⟩ 7 "m1@h" "sending" none none 0
    ⟨"queued", "m1@h", ["a@b.c"], "s", 0, 0, some [("k", "v")], some "old"⟩ rfl rfl

/-- C10: when recipients, cc and bcc are all empty or absent, `send_email`
returns `False` immediately: no message is constructed, no connection is
attempted, nothing is submitted. -/
theorem send_email_no_recipients (sender : String) (recipients : List String)
    (subject body : String) (html_body : Option String)
    (cc bcc : Option (List String))
    (attachments : Option (List (String × List Nat × String)))
    (date_header msgid : String) (net_ok : Bool)
    (hr : recipients = []) (hcc : cc = none ∨ cc = some [])
    (hbcc : bcc = none ∨ bcc = some []) :
    utils_send_email sender recipients subject body html_body cc bcc
        attachments date_header msgid net_ok =
      ⟨false, none, false, none⟩ := by
  subst hr
  rcases hcc with h | h <;> rcases hbcc with h' | h' <;>
    simp [utils_send_email, h, h', truthyList]

/-- Witness for `send_email_no_recipients` at concrete inputs. -/
theorem send_email_no_recipients_wit :
    utils_send_email "s@x.y" [] "subj" "body" none none (some []) none
        "date" "mid" true = ⟨false, none, false, none⟩ :=
  send_email_no_recipients "s@x.y" [] "subj" "body" none none (some []) none
    "date" "mid" true rfl (Or.inl rfl) (Or.inr rfl)

end SMTP
